import Mathlib

/-!
Shallow embedding of gdb/microblaze-tdep.c: the MicroBlaze prologue
scanner (`microblaze_analyze_prologue`), `microblaze_skip_prologue`,
the return-value ABI adapter (`microblaze_extract_return_value`,
`microblaze_store_return_value`), the instruction fetch helper
(`microblaze_fetch_instruction`) and the DWARF register-number mapping
(`microblaze_dwarf2_reg_to_regnum` over `dwarf2_to_reg_map`).

Modelling conventions:
* `CORE_ADDR` is modelled as `Nat`; the one place the C code can wrap an
  unsigned subtraction below zero (`prologue_end_addr -= INST_WORD_SIZE`)
  is modelled explicitly modulo 2^64.
* Target memory is `Nat → Option Nat`, giving for each address the
  32-bit word readable there, or `none` when `target_read_code` fails.
* The opcode decoder `microblaze_decode_insn` lives in opcodes/ (outside
  this translation unit) and is an external collaborator; the scanner is
  parameterised over it as `decode : Nat → MBInsn`.  The classification
  macros (IS_RETURN, IS_UPDATE_SP, ...) are from this file's source.
* The scan loop is written with an explicit fuel argument for structural
  recursion; callers pass `stop - start`, which bounds the number of
  iterations (each iteration advances `addr` by `INST_WORD_SIZE = 4`),
  so the loop's exit is governed by the `addr < stop` test exactly as in
  the C `for` loop.
-/

namespace Microblaze

/-- Register-id constants from microblaze-tdep.h / opcodes headers:
r1 is the stack pointer, r5 the first argument register, r3 the return
value register; registers are 4 bytes; instructions are 4 bytes wide. -/
def REG_SP : Nat := 1

/-- GDB's number for the stack pointer register (r1). -/
def MICROBLAZE_SP_REGNUM : Nat := 1

/-- The first argument register (r5). -/
def MICROBLAZE_FIRST_ARGREG : Nat := 5

/-- The return value register (r3). -/
def MICROBLAZE_RETVAL_REGNUM : Nat := 3

/-- Size of a register in bytes. -/
def MICROBLAZE_REGISTER_SIZE : Nat := 4

/-- Width of one instruction in bytes. -/
def INST_WORD_SIZE : Nat := 4

/-- The opcodes of `enum microblaze_instr` that the prologue-analysis
macros mention; every other opcode behaves uniformly and is collapsed
into `other`. -/
inductive MBOp where
  | rtsd
  | rtid
  | addik
  | addi
  | add
  | addk
  | swi
  | sw
  | other
  deriving DecidableEq, Repr

/-- The result of `microblaze_decode_insn`: opcode plus operand fields
rd, ra, rb and the (sign-extended) immediate. -/
structure MBInsn where
  op : MBOp
  rd : Nat
  ra : Nat
  rb : Nat
  imm : Int
  deriving DecidableEq, Repr

/-- Macro IS_RETURN: `op == rtsd || op == rtid`. -/
def IS_RETURN (op : MBOp) : Bool :=
  op = MBOp.rtsd ∨ op = MBOp.rtid

/-- Macro IS_UPDATE_SP: `(op == addik || op == addi) && rd == REG_SP && ra == REG_SP`. -/
def IS_UPDATE_SP (op : MBOp) (rd ra : Nat) : Bool :=
  (op = MBOp.addik ∨ op = MBOp.addi) ∧ rd = REG_SP ∧ ra = REG_SP

/-- Macro IS_SPILL_SP: `(op == swi || op == sw) && rd == REG_SP && ra == REG_SP`. -/
def IS_SPILL_SP (op : MBOp) (rd ra : Nat) : Bool :=
  (op = MBOp.swi ∨ op = MBOp.sw) ∧ rd = REG_SP ∧ ra = REG_SP

/-- Macro IS_SPILL_REG: `(op == swi || op == sw) && rd != REG_SP && ra == REG_SP`. -/
def IS_SPILL_REG (op : MBOp) (rd ra : Nat) : Bool :=
  (op = MBOp.swi ∨ op = MBOp.sw) ∧ rd ≠ REG_SP ∧ ra = REG_SP

/-- Macro IS_ALSO_SPILL_REG:
`(op == swi || op == sw) && rd != REG_SP && ra == 0 && rb == REG_SP`. -/
def IS_ALSO_SPILL_REG (op : MBOp) (rd ra rb : Nat) : Bool :=
  (op = MBOp.swi ∨ op = MBOp.sw) ∧ rd ≠ REG_SP ∧ ra = 0 ∧ rb = REG_SP

/-- Macro IS_SETUP_FP: `(op == add || op == addik || op == addk) && ra == REG_SP && rb == 0`. -/
def IS_SETUP_FP (op : MBOp) (ra rb : Nat) : Bool :=
  (op = MBOp.add ∨ op = MBOp.addik ∨ op = MBOp.addk) ∧ ra = REG_SP ∧ rb = 0

/-- Macro IS_SPILL_REG_FP:
`(op == swi || op == sw) && rd != REG_SP && ra == fpregnum && ra != 0`. -/
def IS_SPILL_REG_FP (op : MBOp) (rd ra fpregnum : Nat) : Bool :=
  (op = MBOp.swi ∨ op = MBOp.sw) ∧ rd ≠ REG_SP ∧ ra = fpregnum ∧ ra ≠ 0

/-- Macro IS_SAVE_HIDDEN_PTR:
`(op == add || op == addik) && ra == MICROBLAZE_FIRST_ARGREG && rb == 0`. -/
def IS_SAVE_HIDDEN_PTR (op : MBOp) (rd ra rb : Nat) : Bool :=
  (op = MBOp.add ∨ op = MBOp.addik) ∧ ra = MICROBLAZE_FIRST_ARGREG ∧ rb = 0

/-- `microblaze_fetch_instruction`: read the 4-byte word at PC; if the
read fails, return zero (the comment in the source: "If we can't read
the instruction at PC, return zero.").  The `% 2^32` records that
`extract_unsigned_integer` of 4 bytes is below 2^32. -/
def microblaze_fetch_instruction (mem : Nat → Option Nat) (pc : Nat) : Nat :=
  ((mem pc).getD 0) % 2 ^ 32

/-- The fields of `struct microblaze_frame_cache` that the prologue
scanner reads or writes: framesize, fp_regnum, frameless_p and the
register_offsets array (modelled as a total map from register id). -/
structure MBFrameCache where
  framesize : Int
  fp_regnum : Nat
  frameless_p : Bool
  register_offsets : Nat → Int

/-- The state threaded through the scan loop of
`microblaze_analyze_prologue`: the cache fields plus the loop-local
variables `save_hidden_pointer_found`, `non_stack_instruction_found`
and `prologue_end_addr`. -/
structure ScanState where
  cache : MBFrameCache
  save_hidden_pointer_found : Bool
  non_stack_instruction_found : Bool
  prologue_end_addr : Nat

/-- One-point update of the register_offsets array,
`cache->register_offsets[rd] = v`. -/
def setOffset (c : MBFrameCache) (rd : Nat) (v : Int) : MBFrameCache :=
  { c with register_offsets := fun r => if r = rd then v else c.register_offsets r }

/-- The state after recording the first non-stack instruction at
`addr`: remember `addr` as the tentative prologue end if no non-stack
instruction was seen yet, then set `non_stack_instruction_found`. -/
def recordNonStack (s : ScanState) (addr : Nat) : ScanState :=
  { s with
    prologue_end_addr :=
      if s.non_stack_instruction_found then s.prologue_end_addr else addr
    non_stack_instruction_found := true }

/-- The body of the scan loop of `microblaze_analyze_prologue` for one
address: classify the decoded instruction through the `IS_*` macro
chain exactly in source order and update the state.  The returned
boolean is `true` for the `continue` outcomes and `false` for the two
`break` outcomes (a repeated stack adjustment, or a control-flow
instruction ending the prologue). -/
def analyze_prologue_step (decode : Nat → MBInsn) (fetchF : Nat → Nat)
    (addr : Nat) (s : ScanState) : ScanState × Bool :=
  if IS_UPDATE_SP (decode (fetchF addr)).op (decode (fetchF addr)).rd
      (decode (fetchF addr)).ra then
    if s.cache.framesize ≠ 0 then
      (s, false)
    else
      ({ s with
          cache := { s.cache with
            framesize := -(decode (fetchF addr)).imm
            frameless_p := false }
          save_hidden_pointer_found := false
          non_stack_instruction_found := false }, true)
  else if IS_SPILL_SP (decode (fetchF addr)).op (decode (fetchF addr)).rd
      (decode (fetchF addr)).ra then
    ({ s with
        cache := setOffset s.cache (decode (fetchF addr)).rd (decode (fetchF addr)).imm
        save_hidden_pointer_found := false
        non_stack_instruction_found :=
          if s.cache.framesize = 0 then false else s.non_stack_instruction_found }, true)
  else if IS_SPILL_REG (decode (fetchF addr)).op (decode (fetchF addr)).rd
      (decode (fetchF addr)).ra then
    ({ s with
        cache := setOffset s.cache (decode (fetchF addr)).rd
          ((decode (fetchF addr)).imm - s.cache.framesize)
        save_hidden_pointer_found := false
        non_stack_instruction_found :=
          if s.cache.framesize = 0 then false else s.non_stack_instruction_found }, true)
  else if IS_ALSO_SPILL_REG (decode (fetchF addr)).op (decode (fetchF addr)).rd
      (decode (fetchF addr)).ra (decode (fetchF addr)).rb then
    ({ s with
        cache := setOffset s.cache (decode (fetchF addr)).rd (0 - s.cache.framesize)
        save_hidden_pointer_found := false
        non_stack_instruction_found :=
          if s.cache.framesize = 0 then false else s.non_stack_instruction_found }, true)
  else if IS_SETUP_FP (decode (fetchF addr)).op (decode (fetchF addr)).ra
      (decode (fetchF addr)).rb then
    ({ s with
        cache := { s.cache with fp_regnum := (decode (fetchF addr)).rd }
        save_hidden_pointer_found := false
        non_stack_instruction_found :=
          if s.cache.framesize = 0 then false else s.non_stack_instruction_found }, true)
  else if IS_SPILL_REG_FP (decode (fetchF addr)).op (decode (fetchF addr)).rd
      (decode (fetchF addr)).ra s.cache.fp_regnum then
    ({ s with
        cache := setOffset s.cache (decode (fetchF addr)).rd
          ((decode (fetchF addr)).imm - s.cache.framesize)
        save_hidden_pointer_found := false
        non_stack_instruction_found :=
          if s.cache.framesize = 0 then false else s.non_stack_instruction_found }, true)
  else if IS_SAVE_HIDDEN_PTR (decode (fetchF addr)).op (decode (fetchF addr)).rd
      (decode (fetchF addr)).ra (decode (fetchF addr)).rb then
    ({ s with
        save_hidden_pointer_found := true
        non_stack_instruction_found :=
          if s.cache.framesize = 0 then false else s.non_stack_instruction_found }, true)
  else
    if fetchF addr / 2 ^ 26 ≠ 0x26 ∧ fetchF addr / 2 ^ 26 ≠ 0x27 ∧
        fetchF addr / 2 ^ 26 ≠ 0x2d ∧ fetchF addr / 2 ^ 26 ≠ 0x2e ∧
        fetchF addr / 2 ^ 26 ≠ 0x2f then
      (recordNonStack s addr, true)
    else if fetchF addr / 2 ^ 26 = 0x2c then
      (recordNonStack s addr, true)
    else
      (recordNonStack s addr, false)

/-- The `for (addr = func_addr; addr < stop; addr += INST_WORD_SIZE)`
loop of `microblaze_analyze_prologue`.  Returns the final state and
`true` when the loop ran to `stop` (no `break`), `false` when a `break`
terminated it.  `fetchF` is `microblaze_fetch_instruction` applied to
the target memory; `fuel` is an iteration bound (callers pass
`stop - addr`, which suffices since `addr` grows by 4 each step). -/
def analyze_prologue_loop (decode : Nat → MBInsn) (fetchF : Nat → Nat) (stop : Nat) :
    Nat → Nat → ScanState → ScanState × Bool
  | 0, _, s => (s, true)
  | fuel + 1, addr, s =>
    if addr < stop then
      if (analyze_prologue_step decode fetchF addr s).2 then
        analyze_prologue_loop decode fetchF stop fuel (addr + INST_WORD_SIZE)
          (analyze_prologue_step decode fetchF addr s).1
      else ((analyze_prologue_step decode fetchF addr s).1, false)
    else (s, true)

/-- The `pc` after the adjustment `if (func_addr < pc) pc = func_addr`
that follows the `find_pc_partial_function` lookup. -/
def effectivePC (func_addr pc : Nat) : Nat :=
  if func_addr < pc then func_addr else pc

/-- The cache after `microblaze_analyze_prologue`'s initialization:
frame size zeroed, frame pointer defaulted to SP, frameless. -/
def initedCache (c : MBFrameCache) : MBFrameCache :=
  { c with framesize := 0, fp_regnum := MICROBLAZE_SP_REGNUM, frameless_p := true }

/-- The scan bound `stop = (current_pc < func_end ? current_pc :
func_end)`. -/
def scanStop (current_pc func_end : Nat) : Nat :=
  if current_pc < func_end then current_pc else func_end

/-- The returned prologue end address: the tentative address, retracted
by one instruction width when the last recognized event was a
hidden-pointer save.  The retraction `prologue_end_addr -=
INST_WORD_SIZE` is unsigned CORE_ADDR arithmetic, hence taken modulo
2^64. -/
def prologueEndOf (s : ScanState) : Nat :=
  if s.save_hidden_pointer_found then
    (s.prologue_end_addr + (2 ^ 64 - INST_WORD_SIZE)) % 2 ^ 64
  else s.prologue_end_addr

/-- `microblaze_analyze_prologue`.  `func_addr`/`func_end` stand for the
out-parameters of the external `find_pc_partial_function` lookup at
`pc`; `cache` is the caller-supplied frame cache (read back unchanged on
the early-return path, exactly as in the C).  Returns the computed
prologue end address together with the final cache contents. -/
def microblaze_analyze_prologue (decode : Nat → MBInsn) (mem : Nat → Option Nat)
    (func_addr func_end pc current_pc : Nat) (cache : MBFrameCache) :
    Nat × MBFrameCache :=
  if current_pc < effectivePC func_addr pc then (current_pc, cache)
  else if IS_RETURN (decode (microblaze_fetch_instruction mem
      (effectivePC func_addr pc))).op then
    (effectivePC func_addr pc, initedCache cache)
  else
    (prologueEndOf
      (analyze_prologue_loop decode (microblaze_fetch_instruction mem)
        (scanStop current_pc func_end) (scanStop current_pc func_end - func_addr)
        func_addr ⟨initedCache cache, false, false, 0⟩).1,
     (analyze_prologue_loop decode (microblaze_fetch_instruction mem)
        (scanStop current_pc func_end) (scanStop current_pc func_end - func_addr)
        func_addr ⟨initedCache cache, false, false, 0⟩).1.cache)

/-- `microblaze_skip_prologue`.  `found` models whether the external
`find_pc_partial_function` lookup at `start_pc` succeeded, with
`func_start`/`func_end` its out-parameters; `sal_end` models the `end`
field of the `find_pc_line (func_start, 0)` result.  `cache` stands for
the stack-allocated `struct microblaze_frame_cache cache` handed to the
analyzer. -/
def microblaze_skip_prologue (decode : Nat → MBInsn) (mem : Nat → Option Nat)
    (found : Bool) (func_start func_end sal_end start_pc : Nat)
    (cache : MBFrameCache) : Nat :=
  let start_pc :=
    if found = true ∧ sal_end < func_end ∧ start_pc ≤ sal_end then sal_end else start_pc
  let ostart_pc :=
    (microblaze_analyze_prologue decode mem func_start func_end func_start
      4294967295 cache).1
  if start_pc < ostart_pc then ostart_pc else start_pc

/-! Return-value ABI adapter.  Byte buffers are modelled as `List Nat`
(one entry per byte); a register's raw contents is a 4-byte list; the
register file is `Nat → List Nat`.  `Option` models the
`internal_error` / failed `gdb_assert` paths as `none`. -/

/-- Helper for `memcpy (dst + off, src, n)` on list-modelled buffers. -/
def memcpyAt (dst : List Nat) (off : Nat) (src : List Nat) (n : Nat) : List Nat :=
  dst.take off ++ src.take n ++ dst.drop (off + n)

/-- `microblaze_extract_return_value`: copy a return value of `len`
bytes out of the register state.  Sizes 1 and 2 take the low-order
bytes of r3; sizes 4 and 8 read r3 (and r4) and copy `len` bytes; any
other size is an `internal_error` (`none`).  The local `gdb_byte
buf[8]` starts uninitialized; it is modelled as zero-filled (only bytes
the code wrote are ever copied out for the supported sizes). -/
def microblaze_extract_return_value (len : Nat) (regs : Nat → List Nat) :
    Option (List Nat) :=
  let buf0 : List Nat := List.replicate 8 0
  if len = 1 then
    let buf := memcpyAt buf0 0 (regs MICROBLAZE_RETVAL_REGNUM) MICROBLAZE_REGISTER_SIZE
    some ((buf.drop (MICROBLAZE_REGISTER_SIZE - 1)).take 1)
  else if len = 2 then
    let buf := memcpyAt buf0 0 (regs MICROBLAZE_RETVAL_REGNUM) MICROBLAZE_REGISTER_SIZE
    some ((buf.drop (MICROBLAZE_REGISTER_SIZE - 2)).take 2)
  else if len = 4 ∨ len = 8 then
    let buf := memcpyAt buf0 0 (regs MICROBLAZE_RETVAL_REGNUM) MICROBLAZE_REGISTER_SIZE
    let buf := memcpyAt buf 4 (regs (MICROBLAZE_RETVAL_REGNUM + 1)) MICROBLAZE_REGISTER_SIZE
    some (buf.take len)
  else none

/-- `microblaze_store_return_value`: deposit a return value of `len`
bytes into the register state.  `len > 4` asserts `len == 8` and writes
r4 from the high half; values of at most 4 bytes are right-justified in
a zero-filled 4-byte slot; r3 is always written last from the start of
the buffer.  A failed assertion is `none`. -/
def microblaze_store_return_value (len : Nat) (valbuf : List Nat)
    (regs : Nat → List Nat) : Option (Nat → List Nat) :=
  let buf : List Nat := List.replicate 8 0
  if 4 < len then
    if len = 8 then
      let buf := memcpyAt buf 0 valbuf 8
      let regs := fun r =>
        if r = MICROBLAZE_RETVAL_REGNUM + 1 then (buf.drop 4).take MICROBLAZE_REGISTER_SIZE
        else regs r
      some (fun r =>
        if r = MICROBLAZE_RETVAL_REGNUM then buf.take MICROBLAZE_REGISTER_SIZE
        else regs r)
    else none
  else
    let buf := memcpyAt buf (4 - len) valbuf len
    some (fun r =>
      if r = MICROBLAZE_RETVAL_REGNUM then buf.take MICROBLAZE_REGISTER_SIZE
      else regs r)

/-! DWARF register-number mapping. -/

/-- The static table `dwarf2_to_reg_map[78]`: DWARF numbers 0-31 map to
r0-r31, 64-66 and 68-77 are unmapped (-1), 67 maps to rmsr (33), and
the floating-point slots 32-63 are unmapped. -/
def dwarf2_to_reg_map : List Int :=
  [0, 1, 2, 3, 4, 5, 6, 7,
   8, 9, 10, 11, 12, 13, 14, 15,
   16, 17, 18, 19, 20, 21, 22, 23,
   24, 25, 26, 27, 28, 29, 30, 31,
   -1, -1, -1, -1, -1, -1, -1, -1,
   -1, -1, -1, -1, -1, -1, -1, -1,
   -1, -1, -1, -1, -1, -1, -1, -1,
   -1, -1, -1, -1, -1, -1, -1, -1,
   -1, -1, -1, 33, -1, -1, -1, -1,
   -1, -1, -1, -1, -1, -1]

/-- `sizeof (dwarf2_to_reg_map)` in the C source: the array has 78
`int` entries of 4 bytes each, so `sizeof` yields 312 (bytes), not the
element count. -/
def sizeof_dwarf2_to_reg_map : Nat := 78 * 4

/-- `microblaze_dwarf2_reg_to_regnum`: guarded table lookup.  The C
guard is `reg >= 0 && reg < sizeof (dwarf2_to_reg_map)`, i.e. it admits
`reg` up to 311; an index past the 78 stored entries is an
out-of-bounds read (undefined behaviour), modelled as `none`.  A `reg`
rejected by the guard yields `some (-1)`. -/
def microblaze_dwarf2_reg_to_regnum (reg : Int) : Option Int :=
  if 0 ≤ reg ∧ reg < (sizeof_dwarf2_to_reg_map : Int) then
    dwarf2_to_reg_map.get? reg.toNat
  else some (-1)

/-! Concrete instantiations used to exercise the definitions. -/

/-- The frame cache as `microblaze_frame_cache` initializes it: base
fields zeroed, frameless, every saved-register offset cleared to -1. -/
def initCache : MBFrameCache :=
  ⟨0, MICROBLAZE_SP_REGNUM, true, fun _ => -1⟩

/-- A decoder that classifies every word as an unrecognized
instruction. -/
def decodeOther : Nat → MBInsn :=
  fun _ => ⟨MBOp.other, 0, 0, 0, 0⟩

/-- A decoder whose every word is a return instruction (`rtsd`). -/
def decodeRet : Nat → MBInsn :=
  fun _ => ⟨MBOp.rtsd, 0, 0, 0, 0⟩

/-- Entirely unreadable target memory. -/
def memEmpty : Nat → Option Nat :=
  fun _ => none

/-- Memory holding word `w` at every address. -/
def memConst (w : Nat) : Nat → Option Nat :=
  fun _ => some w

/-- `mem` with address `a` replaced by a readable all-zero word. -/
def zero_patched (mem : Nat → Option Nat) (a : Nat) : Nat → Option Nat :=
  fun x => if x = a then some 0 else mem x

/-- A small decoder table keyed by instruction word: 1 and 2 are stack
adjustments (by -16 and -32), 3 spills r20 at offset 12, 4 copies the
first argument register (the hidden-pointer save), anything else is
unrecognized. -/
def decodeWord : Nat → MBInsn := fun w =>
  if w = 1 then ⟨MBOp.addik, REG_SP, REG_SP, 0, -16⟩
  else if w = 2 then ⟨MBOp.addik, REG_SP, REG_SP, 0, -32⟩
  else if w = 3 then ⟨MBOp.swi, 20, REG_SP, 0, 12⟩
  else if w = 4 then ⟨MBOp.add, 3, MICROBLAZE_FIRST_ARGREG, 0, 0⟩
  else ⟨MBOp.other, 0, 0, 0, 0⟩

/-- Memory whose words at 0 and 4 decode (under `decodeWord`) to two
different stack-adjust instructions. -/
def memTwoAdjusts : Nat → Option Nat :=
  fun a => if a = 0 then some 1 else some 2

/-- Memory whose words at 0 and 4 decode (under `decodeWord`) to a
stack adjustment by -16 followed by a spill of r20 at immediate 12. -/
def memAdjustSpill : Nat → Option Nat :=
  fun a => if a = 0 then some 1 else if a = 4 then some 3 else none

/-- Memory holding (under `decodeWord`) a single stack-adjust
instruction at address 0. -/
def memAdjustOnly : Nat → Option Nat :=
  fun a => if a = 0 then some 1 else none

/-- Memory holding (under `decodeWord`) a single save-hidden-pointer
instruction at address 0. -/
def memHiddenOnly : Nat → Option Nat :=
  fun a => if a = 0 then some 4 else none

/-- The frameless/frame-size coupling: a cache marked frameless carries
frame size 0. -/
def framelessInvC (c : MBFrameCache) : Prop :=
  c.frameless_p = true → c.framesize = 0

/-- The frameless/frame-size coupling for a scan state. -/
def framelessInv (s : ScanState) : Prop :=
  framelessInvC s.cache

end Microblaze

namespace Microblaze

/-- C1 (code evaluated at the failing input): the C guard
`reg >= 0 && reg < sizeof (dwarf2_to_reg_map)` compares against the
array's size in bytes (312), not its 78-entry length, so the DWARF
number 78 passes the guard and the lookup runs past the end of the
table (undefined behaviour, `none` in the model) instead of producing
the unmapped sentinel -1. -/
theorem dwarf2_reg_to_regnum_oob_at_78 :
    microblaze_dwarf2_reg_to_regnum 78 = none ∧
    dwarf2_to_reg_map.length = 78 ∧
    (78 : Int) < (sizeof_dwarf2_to_reg_map : Int) := by
  refine ⟨?_, by decide, by decide⟩
  unfold microblaze_dwarf2_reg_to_regnum
  rw [if_pos (by decide)]
  decide

/-- C5: if the instruction at the function entry decodes as a return
(`rtsd`/`rtid`), `microblaze_analyze_prologue` returns immediately: the
reported prologue end is the entry address itself, and the cache is
exactly the freshly initialized one (frameless, frame size 0, frame
pointer = SP) with no saved-register offset written. -/
theorem analyze_prologue_return_at_entry
    (decode : Nat → MBInsn) (mem : Nat → Option Nat)
    (func_end pc current_pc : Nat) (c : MBFrameCache)
    (hret : IS_RETURN (decode (microblaze_fetch_instruction mem pc)).op = true)
    (hcur : pc ≤ current_pc) :
    microblaze_analyze_prologue decode mem pc func_end pc current_pc c =
      (pc,
        { c with
            framesize := 0
            fp_regnum := MICROBLAZE_SP_REGNUM
            frameless_p := true }) := by
  unfold microblaze_analyze_prologue
  simp [effectivePC, initedCache, Nat.lt_irrefl, Nat.not_lt.mpr hcur, hret]

/-- Witness for C5 at a concrete input: entry 0 holds a return
instruction, so the scan of [0, 4) reports prologue end 0 and the
initialized frameless cache. -/
theorem analyze_prologue_return_at_entry_witness :
    microblaze_analyze_prologue decodeRet (memConst 0) 0 4 0 4 initCache =
      (0,
        { initCache with
            framesize := 0
            fp_regnum := MICROBLAZE_SP_REGNUM
            frameless_p := true }) :=
  analyze_prologue_return_at_entry decodeRet (memConst 0) 4 0 4 initCache
    (by decide) (by decide)

/-- C6: `microblaze_skip_prologue` returns exactly the later of the
line-table-adjusted start address and the scanner's own
full-function prologue end; in particular it is never earlier than the
scanner's result. -/
theorem skip_prologue_ge_scanner
    (decode : Nat → MBInsn) (mem : Nat → Option Nat) (found : Bool)
    (func_start func_end sal_end start_pc : Nat) (c : MBFrameCache) :
    microblaze_skip_prologue decode mem found func_start func_end sal_end start_pc c =
      max (if found = true ∧ sal_end < func_end ∧ start_pc ≤ sal_end then sal_end
           else start_pc)
        (microblaze_analyze_prologue decode mem func_start func_end func_start
          4294967295 c).1 ∧
    (microblaze_analyze_prologue decode mem func_start func_end func_start
        4294967295 c).1 ≤
      microblaze_skip_prologue decode mem found func_start func_end sal_end start_pc c := by
  simp only [microblaze_skip_prologue]
  by_cases hC : found = true ∧ sal_end < func_end ∧ start_pc ≤ sal_end
  · rw [if_pos hC]
    constructor
    · rw [Nat.max_def]; split <;> split <;> omega
    · split <;> omega
  · rw [if_neg hC]
    constructor
    · rw [Nat.max_def]; split <;> split <;> omega
    · split <;> omega

/-- C9: a failed instruction fetch (unreadable word at address `a`)
yields the all-zero instruction word, and the prologue analysis of such
memory is identical to the analysis of the same memory with a readable
zero word at `a` — the scan absorbs the read failure and still returns
its summary. -/
theorem analyze_prologue_unreadable_is_zero_word
    (mem : Nat → Option Nat) (a : Nat) (hm : mem a = none)
    (decode : Nat → MBInsn) (func_addr func_end pc current_pc : Nat)
    (c : MBFrameCache) :
    microblaze_fetch_instruction mem a = 0 ∧
    microblaze_analyze_prologue decode mem func_addr func_end pc current_pc c =
      microblaze_analyze_prologue decode (zero_patched mem a) func_addr func_end
        pc current_pc c := by
  have hf : microblaze_fetch_instruction mem =
      microblaze_fetch_instruction (zero_patched mem a) := by
    funext x
    unfold microblaze_fetch_instruction zero_patched
    by_cases hx : x = a
    · subst hx; rw [hm]; simp
    · simp [hx]
  constructor
  · unfold microblaze_fetch_instruction
    rw [hm]
    rfl
  · unfold microblaze_analyze_prologue
    rw [hf]

/-- Witness for C9 at a concrete input: address 0 of the fully
unreadable memory fetches as 0, and the scan over [0, 8) agrees with
the zero-patched memory's scan. -/
theorem analyze_prologue_unreadable_is_zero_word_witness :
    microblaze_fetch_instruction memEmpty 0 = 0 ∧
    microblaze_analyze_prologue decodeOther memEmpty 0 8 0 8 initCache =
      microblaze_analyze_prologue decodeOther (zero_patched memEmpty 0) 0 8 0 8
        initCache :=
  analyze_prologue_unreadable_is_zero_word memEmpty 0 rfl decodeOther 0 8 0 8
    initCache

/-- C3: once a first stack-adjust instruction (immediate -N, N nonzero)
has set the frame size, a second, different stack-adjust instruction
(immediate -M) stops the scan before it is processed: the loop breaks
and the final state is exactly the state after the first adjustment, so
`framesize` keeps the value N derived from the first instruction. -/
theorem analyze_prologue_loop_second_stack_adjust
    (decode : Nat → MBInsn) (fetchF : Nat → Nat) (a fuel : Nat)
    (N M : Int) (rb₁ rb₂ : Nat) (s : ScanState)
    (h1 : decode (fetchF a) = ⟨MBOp.addik, REG_SP, REG_SP, rb₁, -N⟩)
    (h2 : decode (fetchF (a + INST_WORD_SIZE)) = ⟨MBOp.addik, REG_SP, REG_SP, rb₂, -M⟩)
    (hN : N ≠ 0) (hM : M ≠ N) (hs : s.cache.framesize = 0) :
    analyze_prologue_loop decode fetchF (a + 8) (fuel + 1 + 1) a s =
      ({ s with
          cache := { s.cache with framesize := N, frameless_p := false }
          save_hidden_pointer_found := false
          non_stack_instruction_found := false }, false) := by
  simp only [INST_WORD_SIZE] at h2
  simp [analyze_prologue_loop, analyze_prologue_step, h1, h2, hs, hN,
    IS_UPDATE_SP, REG_SP, INST_WORD_SIZE]

/-- Witness for C3 at a concrete input: adjust(-16) then adjust(-32)
starting at address 0; the loop breaks at the second adjustment with
framesize 16. -/
theorem analyze_prologue_loop_second_stack_adjust_witness :
    analyze_prologue_loop decodeWord (microblaze_fetch_instruction memTwoAdjusts)
        (0 + 8) (0 + 1 + 1) 0 ⟨initCache, false, false, 0⟩ =
      ({ (⟨initCache, false, false, 0⟩ : ScanState) with
          cache := { initCache with framesize := 16, frameless_p := false }
          save_hidden_pointer_found := false
          non_stack_instruction_found := false }, false) :=
  analyze_prologue_loop_second_stack_adjust decodeWord
    (microblaze_fetch_instruction memTwoAdjusts) 0 0 16 32 0 0
    ⟨initCache, false, false, 0⟩ (by decide) (by decide) (by decide) (by decide)
    rfl

/-- C4: scanning from the entry over `stack-adjust(-N); spill(r, N-k)`
with the limit just past both instructions yields a summary with frame
size N, the frameless flag cleared, and the saved offset of register r
equal to (N - k) - N = -k. -/
theorem analyze_prologue_adjust_then_spill
    (decode : Nat → MBInsn) (mem : Nat → Option Nat) (a : Nat)
    (N k : Int) (r rb₁ rb₂ : Nat) (c : MBFrameCache)
    (h1 : decode (microblaze_fetch_instruction mem a) =
      ⟨MBOp.addik, REG_SP, REG_SP, rb₁, -N⟩)
    (h2 : decode (microblaze_fetch_instruction mem (a + INST_WORD_SIZE)) =
      ⟨MBOp.swi, r, REG_SP, rb₂, N - k⟩)
    (hr : r ≠ REG_SP) :
    (microblaze_analyze_prologue decode mem a (a + 8) a (a + 8) c).2.framesize = N ∧
    (microblaze_analyze_prologue decode mem a (a + 8) a (a + 8) c).2.frameless_p = false ∧
    (microblaze_analyze_prologue decode mem a (a + 8) a (a + 8) c).2.register_offsets r
      = -k := by
  simp only [INST_WORD_SIZE] at h2
  simp only [REG_SP] at hr
  refine ⟨?_, ?_, ?_⟩ <;>
    simp [microblaze_analyze_prologue, analyze_prologue_loop,
      analyze_prologue_step, effectivePC, initedCache, scanStop, prologueEndOf,
      h1, h2, hr, IS_RETURN, IS_UPDATE_SP, IS_SPILL_SP, IS_SPILL_REG, REG_SP,
      setOffset, INST_WORD_SIZE, MICROBLAZE_SP_REGNUM, Nat.add_sub_cancel_left,
      sub_sub_cancel_left]

/-- Witness for C4 at a concrete input: adjust(-16) at 0 then spill of
r20 with immediate 12 at 4 (N = 16, k = 4): framesize 16, not
frameless, offset of r20 is -4. -/
theorem analyze_prologue_adjust_then_spill_witness :
    (microblaze_analyze_prologue decodeWord memAdjustSpill 0 (0 + 8) 0 (0 + 8)
        initCache).2.framesize = 16 ∧
    (microblaze_analyze_prologue decodeWord memAdjustSpill 0 (0 + 8) 0 (0 + 8)
        initCache).2.frameless_p = false ∧
    (microblaze_analyze_prologue decodeWord memAdjustSpill 0 (0 + 8) 0 (0 + 8)
        initCache).2.register_offsets 20 = -4 :=
  analyze_prologue_adjust_then_spill decodeWord memAdjustSpill 0 16 4 20 0 0
    initCache (by decide) (by decide) (by decide)

/-- C2 refuted at a concrete input: scanning a single stack-adjust
instruction at address 0 with scan limit 4, the loop runs to the limit
with no break (first conjunct), yet the returned prologue end address
is 0 — the never-assigned tentative value — and not the scan's final
address 4. -/
theorem analyze_prologue_no_break_counterexample :
    (analyze_prologue_loop decodeWord (microblaze_fetch_instruction memAdjustOnly)
        4 4 0
        ⟨{ initCache with
             framesize := 0
             fp_regnum := MICROBLAZE_SP_REGNUM
             frameless_p := true }, false, false, 0⟩).2 = true ∧
    (microblaze_analyze_prologue decodeWord memAdjustOnly 0 100 0 4 initCache).1 = 0 ∧
    (microblaze_analyze_prologue decodeWord memAdjustOnly 0 100 0 4 initCache).1 ≠ 4 := by
  refine ⟨by decide, by decide, by decide⟩

/-- C2 as amended: when the scan starting at the function entry `a`
runs its loop (the entry instruction not being a return), the returned
prologue end address is the loop's tentative `prologue_end_addr` — the
address of the first non-stack instruction, left at 0 when none was
seen — even when the loop ran to the limit without a break (it is never
the scan's final address); stated here for a run with the
hidden-pointer flag clear at termination. -/
theorem analyze_prologue_no_break_returns_tentative
    (decode : Nat → MBInsn) (mem : Nat → Option Nat)
    (a func_end current_pc : Nat) (c : MBFrameCache)
    (hret : IS_RETURN (decode (microblaze_fetch_instruction mem a)).op = false)
    (hcur : a ≤ current_pc)
    (hnb : (analyze_prologue_loop decode (microblaze_fetch_instruction mem)
        (scanStop current_pc func_end) (scanStop current_pc func_end - a) a
        ⟨initedCache c, false, false, 0⟩).2 = true)
    (hsh : (analyze_prologue_loop decode (microblaze_fetch_instruction mem)
        (scanStop current_pc func_end) (scanStop current_pc func_end - a) a
        ⟨initedCache c, false, false, 0⟩).1.save_hidden_pointer_found = false) :
    (microblaze_analyze_prologue decode mem a func_end a current_pc c).1 =
      (analyze_prologue_loop decode (microblaze_fetch_instruction mem)
        (scanStop current_pc func_end) (scanStop current_pc func_end - a) a
        ⟨initedCache c, false, false, 0⟩).1.prologue_end_addr := by
  have he : effectivePC a a = a := by simp [effectivePC]
  have hpc : ¬ (current_pc < a) := Nat.not_lt.mpr hcur
  unfold microblaze_analyze_prologue
  rw [he, if_neg hpc,
    if_neg (show ¬ IS_RETURN (decode (microblaze_fetch_instruction mem a)).op
      = true by simp [hret])]
  simp [prologueEndOf, hsh]

/-- Witness for the amended C2 at a concrete input: the single
stack-adjust function's scan returns tentative address 0. -/
theorem analyze_prologue_no_break_returns_tentative_witness :
    (microblaze_analyze_prologue decodeWord memAdjustOnly 0 100 0 4 initCache).1 =
      (analyze_prologue_loop decodeWord (microblaze_fetch_instruction memAdjustOnly)
        (scanStop 4 100) (scanStop 4 100 - 0) 0
        ⟨initedCache initCache, false, false, 0⟩).1.prologue_end_addr :=
  analyze_prologue_no_break_returns_tentative decodeWord memAdjustOnly 0 100 4
    initCache (by decide) (by decide) (by decide) (by decide)

/-- C7 refuted at a concrete input: a function consisting of a single
save-hidden-pointer instruction at address 0, scanned with limit 4: the
loop terminates with the hidden-pointer flag set (first conjunct), the
tentative prologue end address was never assigned (it is 0), and the
unsigned retraction wraps to 2^64 - 4 — not 0, the address one
instruction width earlier than that instruction's successor 4. -/
theorem analyze_prologue_hidden_ptr_retract_counterexample :
    (analyze_prologue_loop decodeWord (microblaze_fetch_instruction memHiddenOnly)
        4 4 0
        ⟨{ initCache with
             framesize := 0
             fp_regnum := MICROBLAZE_SP_REGNUM
             frameless_p := true }, false, false, 0⟩).1.save_hidden_pointer_found
      = true ∧
    (microblaze_analyze_prologue decodeWord memHiddenOnly 0 4 0 4 initCache).1 =
      2 ^ 64 - 4 ∧
    (microblaze_analyze_prologue decodeWord memHiddenOnly 0 4 0 4 initCache).1 ≠ 0 := by
  refine ⟨by decide, by decide, by decide⟩

/-- C7 as amended: when the scan's loop terminates with the
hidden-pointer flag set, the returned prologue end address is the
loop's tentative `prologue_end_addr` minus one instruction width in
unsigned CORE_ADDR arithmetic (modulo 2^64, wrapping when the tentative
address is 0); it need not be one width before the trailing
instruction's successor. -/
theorem analyze_prologue_hidden_ptr_retract
    (decode : Nat → MBInsn) (mem : Nat → Option Nat)
    (a func_end current_pc : Nat) (c : MBFrameCache)
    (hret : IS_RETURN (decode (microblaze_fetch_instruction mem a)).op = false)
    (hcur : a ≤ current_pc)
    (hsh : (analyze_prologue_loop decode (microblaze_fetch_instruction mem)
        (scanStop current_pc func_end) (scanStop current_pc func_end - a) a
        ⟨initedCache c, false, false, 0⟩).1.save_hidden_pointer_found = true) :
    (microblaze_analyze_prologue decode mem a func_end a current_pc c).1 =
      ((analyze_prologue_loop decode (microblaze_fetch_instruction mem)
          (scanStop current_pc func_end) (scanStop current_pc func_end - a) a
          ⟨initedCache c, false, false, 0⟩).1.prologue_end_addr +
        (2 ^ 64 - INST_WORD_SIZE)) % 2 ^ 64 := by
  have he : effectivePC a a = a := by simp [effectivePC]
  have hpc : ¬ (current_pc < a) := Nat.not_lt.mpr hcur
  unfold microblaze_analyze_prologue
  rw [he, if_neg hpc,
    if_neg (show ¬ IS_RETURN (decode (microblaze_fetch_instruction mem a)).op
      = true by simp [hret])]
  simp [prologueEndOf, hsh]

/-- Witness for the amended C7 at a concrete input: the
single-hidden-pointer-save function's scan returns the wrapped
retraction of tentative address 0. -/
theorem analyze_prologue_hidden_ptr_retract_witness :
    (microblaze_analyze_prologue decodeWord memHiddenOnly 0 4 0 4 initCache).1 =
      ((analyze_prologue_loop decodeWord
          (microblaze_fetch_instruction memHiddenOnly)
          (scanStop 4 4) (scanStop 4 4 - 0) 0
          ⟨initedCache initCache, false, false, 0⟩).1.prologue_end_addr +
        (2 ^ 64 - INST_WORD_SIZE)) % 2 ^ 64 :=
  analyze_prologue_hidden_ptr_retract decodeWord memHiddenOnly 0 4 4 initCache
    (by decide) (by decide) (by decide)

/-- C8: storing an 8-byte return value (writing r3 and r4) and then
extracting an 8-byte return value from the resulting register state
returns the original eight bytes, byte for byte, across both
registers. -/
theorem store_extract_return_value_roundtrip
    (valbuf : List Nat) (regs : Nat → List Nat) (h : valbuf.length = 8) :
    (microblaze_store_return_value 8 valbuf regs).bind
      (microblaze_extract_return_value 8) = some valbuf := by
  have h4 : valbuf.take 8 = valbuf := List.take_of_length_le (by omega)
  have h5 : (valbuf.drop 4).take 4 = valbuf.drop 4 :=
    List.take_of_length_le (by simp [h])
  simp [microblaze_store_return_value, microblaze_extract_return_value, memcpyAt,
    MICROBLAZE_RETVAL_REGNUM, MICROBLAZE_REGISTER_SIZE, h4, h5, h,
    List.take_append_eq_append_take, List.drop_append_eq_append_drop,
    List.length_take, List.take_take]

/-- Witness for C8 at a concrete input: the bytes 1..8 survive the
store/extract round trip. -/
theorem store_extract_return_value_roundtrip_witness :
    (microblaze_store_return_value 8 [1, 2, 3, 4, 5, 6, 7, 8]
        (fun _ => [0, 0, 0, 0])).bind
      (microblaze_extract_return_value 8) = some [1, 2, 3, 4, 5, 6, 7, 8] :=
  store_extract_return_value_roundtrip [1, 2, 3, 4, 5, 6, 7, 8]
    (fun _ => [0, 0, 0, 0]) (by decide)

set_option maxHeartbeats 1000000 in
/-- One scan step preserves the invariant that a frameless state has
frame size 0: `frameless_p` is cleared exactly where `framesize` is
assigned, and no other branch touches either field. -/
theorem analyze_prologue_step_frameless_inv
    (decode : Nat → MBInsn) (fetchF : Nat → Nat) (addr : Nat) (s : ScanState)
    (h : framelessInv s) :
    framelessInv (analyze_prologue_step decode fetchF addr s).1 := by
  unfold analyze_prologue_step recordNonStack
  repeat' split
  all_goals
    first
      | exact h
      | exact fun hh => absurd hh (by simp)

/-- The scan loop preserves the frameless/frame-size invariant. -/
theorem analyze_prologue_loop_frameless_inv
    (decode : Nat → MBInsn) (fetchF : Nat → Nat) (stop : Nat) :
    ∀ fuel addr s, framelessInv s →
      framelessInv (analyze_prologue_loop decode fetchF stop fuel addr s).1 := by
  intro fuel
  induction fuel with
  | zero => intro addr s h; exact h
  | succ n ih =>
    intro addr s h
    rw [analyze_prologue_loop]
    split
    · split
      · exact ih _ _ (analyze_prologue_step_frameless_inv _ _ _ _ h)
      · exact analyze_prologue_step_frameless_inv _ _ _ _ h
    · exact h

/-- C10: for any completed prologue analysis whose input cache already
satisfies it, the produced summary satisfies: frameless implies frame
size 0 (the scan clears the flag only at the one point where it assigns
the frame size). -/
theorem analyze_prologue_frameless_zero
    (decode : Nat → MBInsn) (mem : Nat → Option Nat)
    (func_addr func_end pc current_pc : Nat) (c : MBFrameCache)
    (hc : c.frameless_p = true → c.framesize = 0)
    (hfl : (microblaze_analyze_prologue decode mem func_addr func_end pc
        current_pc c).2.frameless_p = true) :
    (microblaze_analyze_prologue decode mem func_addr func_end pc
        current_pc c).2.framesize = 0 := by
  have key : framelessInvC
      (microblaze_analyze_prologue decode mem func_addr func_end pc
        current_pc c).2 := by
    unfold microblaze_analyze_prologue
    split
    · exact hc
    · split
      · intro _; rfl
      · exact analyze_prologue_loop_frameless_inv _ _ _ _ _ _ (fun _ => rfl)
  exact key hfl

/-- Witness for C10 at a concrete input: a scan over unreadable memory
classifying every word as unrecognized leaves the summary frameless
with frame size 0. -/
theorem analyze_prologue_frameless_zero_witness :
    (microblaze_analyze_prologue decodeOther memEmpty 0 8 0 8
        initCache).2.framesize = 0 :=
  analyze_prologue_frameless_zero decodeOther memEmpty 0 8 0 8 initCache
    (fun _ => rfl) (by decide)

end Microblaze
